import Mathlib

/-!
# Verification of the cubefit fitting module

This file gives a shallow embedding, in exact rational arithmetic, of the
numerical core of `cubefit/fitting.py`: the per-wavelength linear profiler
`determine_sky_and_sn`, the sky estimators `guess_sky` and
`guess_sky_clipping`, the chi-square/gradient functions
`chisq_galaxy_single` and `chisq_galaxy_sky_single`, the finite-difference
Hessian `chisq_pssm_hess`, the optimizer-result checks of the outer
drivers, and the feasibility-box guard of the position-fitting objectives.

Data cubes `data[w, y, x]` are modelled as functions `Fin nw → Fin ns → ℚ`
over a wavelength index and a flattened spatial index (the spatial `y, x`
grid only ever enters through sums over all spatial pixels, so flattening
it to one index is faithful).  The opaque forward-model object `atm`
(`evaluate_galaxy`, `evaluate_point_source`, `gradient_helper`) is
represented by explicit function parameters, with the data shape and any
fixed position arguments folded into those functions.

Theorems relate these embedded definitions to the properties stated in
the specification.
-/

namespace Cubefit

/-- A data cube, indexed by wavelength `i : Fin nw` and flattened spatial
pixel `j : Fin ns`, with exact rational arithmetic standing in for the
floating-point arithmetic of the source. -/
abbrev Cube (nw ns : ℕ) := Fin nw → Fin ns → ℚ

/-- A one-dimensional per-wavelength spectrum. -/
abbrev Spectrum (nw : ℕ) := Fin nw → ℚ

variable {nw ns : ℕ}

/-! ## determine_sky_and_sn (fitting.py lines 142-205)

Per-wavelength normal-matrix entries and right-hand-side sums, named as in
the source. -/

/-- Source: `A11 = (weight * snmodel**2).sum(axis=(1, 2))`. -/
def A11 (snmodel weight : Cube nw ns) (i : Fin nw) : ℚ :=
  ∑ j, weight i j * snmodel i j ^ 2

/-- Source: `A12 = (-weight * snmodel).sum(axis=(1, 2))`. -/
def A12 (snmodel weight : Cube nw ns) (i : Fin nw) : ℚ :=
  ∑ j, -weight i j * snmodel i j

/-- Source: `A21 = A12`. -/
def A21 (snmodel weight : Cube nw ns) (i : Fin nw) : ℚ :=
  A12 snmodel weight i

/-- Source: `A22 = weight.sum(axis=(1, 2))`. -/
def A22 (weight : Cube nw ns) (i : Fin nw) : ℚ :=
  ∑ j, weight i j

/-- Source: `denom = A11*A22 - A12*A21`. -/
def denom (snmodel weight : Cube nw ns) (i : Fin nw) : ℚ :=
  A11 snmodel weight i * A22 weight i - A12 snmodel weight i * A21 snmodel weight i

/-- Source: `wd = (weight * data).sum(axis=(1, 2))`. -/
def wd (data weight : Cube nw ns) (i : Fin nw) : ℚ :=
  ∑ j, weight i j * data i j

/-- Source: `wdsn = (weight * data * snmodel).sum(axis=(1, 2))`. -/
def wdsn (snmodel data weight : Cube nw ns) (i : Fin nw) : ℚ :=
  ∑ j, weight i j * data i j * snmodel i j

/-- Source: `wdgal = (weight * data * galmodel).sum(axis=(1, 2))` (computed
but unused in the return value; kept for fidelity). -/
def wdgal (galmodel data weight : Cube nw ns) (i : Fin nw) : ℚ :=
  ∑ j, weight i j * data i j * galmodel i j

/-- Source: `wgal = (weight * galmodel).sum(axis=(1, 2))`. -/
def wgal (galmodel weight : Cube nw ns) (i : Fin nw) : ℚ :=
  ∑ j, weight i j * galmodel i j

/-- Source: `wgalsn = (weight * galmodel * snmodel).sum(axis=(1, 2))`. -/
def wgalsn (galmodel snmodel weight : Cube nw ns) (i : Fin nw) : ℚ :=
  ∑ j, weight i j * galmodel i j * snmodel i j

/-- Source: `wgal2 = (weight * galmodel * galmodel).sum(axis=(1, 2))`
(computed but unused in the return value; kept for fidelity). -/
def wgal2 (galmodel weight : Cube nw ns) (i : Fin nw) : ℚ :=
  ∑ j, weight i j * galmodel i j * galmodel i j

/-- Source: `denom[mask] = 1.0` — the dummy value substituted at slices
whose true denominator vanishes (`mask = denom == 0.0`). -/
def denomSafe (snmodel weight : Cube nw ns) (i : Fin nw) : ℚ :=
  if denom snmodel weight i = 0 then 1 else denom snmodel weight i

/-- Source: `b_sky = (wd * A11 + wdsn * A12) / denom`. -/
def b_sky (snmodel data weight : Cube nw ns) (i : Fin nw) : ℚ :=
  (wd data weight i * A11 snmodel weight i
    + wdsn snmodel data weight i * A12 snmodel weight i) / denomSafe snmodel weight i

/-- Source: `c_sky = (wgal * A11 + wgalsn * A12) / denom`. -/
def c_sky (galmodel snmodel weight : Cube nw ns) (i : Fin nw) : ℚ :=
  (wgal galmodel weight i * A11 snmodel weight i
    + wgalsn galmodel snmodel weight i * A12 snmodel weight i) / denomSafe snmodel weight i

/-- Source: `b_sn = (wd * A21 + wdsn * A22) / denom`. -/
def b_sn (snmodel data weight : Cube nw ns) (i : Fin nw) : ℚ :=
  (wd data weight i * A21 snmodel weight i
    + wdsn snmodel data weight i * A22 weight i) / denomSafe snmodel weight i

/-- Source: `c_sn = (wgal * A21 + wgalsn * A22) / denom`. -/
def c_sn (galmodel snmodel weight : Cube nw ns) (i : Fin nw) : ℚ :=
  (wgal galmodel weight i * A21 snmodel weight i
    + wgalsn galmodel snmodel weight i * A22 weight i) / denomSafe snmodel weight i

/-- Source: `sky = b_sky - c_sky` followed by `sky[mask] = 0.0`. -/
def skyOut (galmodel snmodel data weight : Cube nw ns) (i : Fin nw) : ℚ :=
  if denom snmodel weight i = 0 then 0
  else b_sky snmodel data weight i - c_sky galmodel snmodel weight i

/-- Source: `sn = b_sn - c_sn` followed by `sn[mask] = 0.0`. -/
def snOut (galmodel snmodel data weight : Cube nw ns) (i : Fin nw) : ℚ :=
  if denom snmodel weight i = 0 then 0
  else b_sn snmodel data weight i - c_sn galmodel snmodel weight i

/-- Embedding of `determine_sky_and_sn` (fitting.py lines 142-205).  The
`ValueError` raised when some slice has `denom == 0` but `A22 != 0`
(source lines 176-179) is modelled with `Except.error`; otherwise the
per-wavelength `sky` and `sn` spectra are returned. -/
def determine_sky_and_sn (galmodel snmodel data weight : Cube nw ns) :
    Except String (Spectrum nw × Spectrum nw) :=
  if ∃ i, denom snmodel weight i = 0 ∧ A22 weight i ≠ 0 then
    Except.error "found null denom for slices with non null weight"
  else
    Except.ok (skyOut galmodel snmodel data weight, snOut galmodel snmodel data weight)

/-! ## Reference weighted-least-squares solution (for claim C1) -/

/-- Modelled from the spec: the slice residual sum `Σ weight*(data - gal)`
entering the right-hand side of the 2x2 normal equations. -/
def refSwr (galmodel data weight : Cube nw ns) (i : Fin nw) : ℚ :=
  ∑ j, weight i j * (data i j - galmodel i j)

/-- Modelled from the spec: the slice sum `Σ weight*psf*(data - gal)`
entering the right-hand side of the 2x2 normal equations. -/
def refSwpr (galmodel snmodel data weight : Cube nw ns) (i : Fin nw) : ℚ :=
  ∑ j, weight i j * snmodel i j * (data i j - galmodel i j)

/-- Modelled from the spec: the sky component of the closed-form
weighted-least-squares solution of
`min over (sky, sn) of Σ weight*(data - sky - gal - sn*psf)^2`,
obtained by direct inversion of the 2x2 normal matrix
`[[Σw, Σw*psf], [Σw*psf, Σw*psf^2]]` for one wavelength slice. -/
def wlsSky (galmodel snmodel data weight : Cube nw ns) (i : Fin nw) : ℚ :=
  ((∑ j, weight i j * snmodel i j ^ 2) * refSwr galmodel data weight i
      - (∑ j, weight i j * snmodel i j) * refSwpr galmodel snmodel data weight i)
    / ((∑ j, weight i j) * (∑ j, weight i j * snmodel i j ^ 2)
      - (∑ j, weight i j * snmodel i j) * (∑ j, weight i j * snmodel i j))

/-- Modelled from the spec: the point-source amplitude component of the
closed-form weighted-least-squares solution by direct 2x2 inversion. -/
def wlsSn (galmodel snmodel data weight : Cube nw ns) (i : Fin nw) : ℚ :=
  ((∑ j, weight i j) * refSwpr galmodel snmodel data weight i
      - (∑ j, weight i j * snmodel i j) * refSwr galmodel data weight i)
    / ((∑ j, weight i j) * (∑ j, weight i j * snmodel i j ^ 2)
      - (∑ j, weight i j * snmodel i j) * (∑ j, weight i j * snmodel i j))

/-! ## chisq_galaxy_single / chisq_galaxy_sky_single (fitting.py 208-241)

The opaque per-epoch forward model `atm` is represented by two function
parameters: `evalGal` stands for `atm.evaluate_galaxy(·, data.shape[1:3],
ctr)` and `gradHelper` for `atm.gradient_helper(·, data.shape[1:3], ctr)`,
with the fixed shape and position folded in.  `G` is the type of the
galaxy model and `Γ` the type of galaxy-space gradients. -/

/-- Embedding of `chisq_galaxy_single` (fitting.py lines 208-218):
`r = data - scene`, `wr = weight * r`, value `Σ wr*r`, gradient
`gradient_helper(-2*wr)`. -/
def chisq_galaxy_single {G Γ : Type} (evalGal : G → Cube nw ns)
    (gradHelper : Cube nw ns → Γ) (galaxy : G) (data weight : Cube nw ns) :
    ℚ × Γ :=
  let scene := evalGal galaxy
  let r : Cube nw ns := fun i j => data i j - scene i j
  let wr : Cube nw ns := fun i j => weight i j * r i j
  (∑ i, ∑ j, wr i j * r i j, gradHelper (fun i j => -2 * wr i j))

/-- Embedding of `chisq_galaxy_sky_single` (fitting.py lines 221-241):
the sky (per-wavelength weighted average of the residual, `np.average(r,
weights=weight, axis=(1, 2))`) is subtracted from the residual before the
chi-square and gradient are formed, and the correction term
`vtwr = weight * (Σ wr / Σ weight)` is subtracted from the weighted
residual inside the `gradient_helper` argument. -/
def chisq_galaxy_sky_single {G Γ : Type} (evalGal : G → Cube nw ns)
    (gradHelper : Cube nw ns → Γ) (galaxy : G) (data weight : Cube nw ns) :
    ℚ × Γ :=
  let scene := evalGal galaxy
  let r0 : Cube nw ns := fun i j => data i j - scene i j
  let sky : Spectrum nw := fun i => (∑ j, weight i j * r0 i j) / ∑ j, weight i j
  let r : Cube nw ns := fun i j => r0 i j - sky i
  let wr : Cube nw ns := fun i j => weight i j * r i j
  let tmp : Spectrum nw := fun i => (∑ j, wr i j) / ∑ j, weight i j
  let vtwr : Cube nw ns := fun i j => weight i j * tmp i
  (∑ i, ∑ j, wr i j * r i j, gradHelper (fun i j => -2 * (wr i j - vtwr i j)))

/-- The raw residual `r = data - scene`. -/
def residual (scene data : Cube nw ns) : Cube nw ns :=
  fun i j => data i j - scene i j

/-- Per-wavelength weighted average of a cube, `np.average(x,
weights=weight, axis=(1, 2))`. -/
def weightedAvg (weight x : Cube nw ns) (i : Fin nw) : ℚ :=
  (∑ j, weight i j * x i j) / ∑ j, weight i j

/-- The weighted sky-subtracted residual `wr = weight * (r - sky)` with
`sky` the per-wavelength weighted average of the residual. -/
def wrOf (scene data weight : Cube nw ns) : Cube nw ns :=
  fun i j => weight i j *
    (residual scene data i j - weightedAvg weight (residual scene data) i)

/-- The gradient correction term `vtwr = weight * (Σ wr / Σ weight)`
(per wavelength), built from the sky-subtracted weighted residual. -/
def vtwrOf (scene data weight : Cube nw ns) : Cube nw ns :=
  fun i j => weight i j *
    ((∑ k, wrOf scene data weight i k) / ∑ k, weight i k)

/-! ## chisq_pssm_hess (fitting.py lines 543-623)

The fully profiled per-epoch chi-square `chisq_nonref_epoch(ctr, snctr,
galaxy, datas[i], weights[i], atms[i])` depends on the opaque forward
model, so the Hessian is embedded over an abstract function
`F : ℕ → Pos → Pos → ℚ` giving that chi-square for epoch `i` at data
position `ctr` and point-source position `snctr`. -/

/-- A continuous (y, x) position in spaxel coordinates. -/
abbrev Pos := ℚ × ℚ

/-- The finite-difference step of `chisq_pssm_grad` / `chisq_pssm_hess`:
`EPS = 0.02` (fitting.py line 548). -/
def EPS : ℚ := 1 / 50

/-- Source: `EPS2 = EPS*EPS` (fitting.py line 549). -/
def EPS2 : ℚ := EPS * EPS

/-- Functional update of one Hessian entry, modelling the numpy element
assignment `hess[r, c] = v`. -/
def hupd (h : ℕ → ℕ → ℚ) (r c : ℕ) (v : ℚ) : ℕ → ℕ → ℚ :=
  fun r' c' => if r' = r ∧ c' = c then v else h r' c'

/-- One iteration of the `for i in range(nepochs)` loop of
`chisq_pssm_hess` (fitting.py lines 555-621), acting on the Hessian
accumulated so far.  The sixteen `hupd` applications mirror, in order,
the sixteen element assignments of the source, including the `+=`
accumulation into the four point-source entries and the literal
`(c.. - c. - c. - c0) / EPS2` expressions of the data-position x
SN-position cross terms. -/
def hessEpochUpdate (n : ℕ) (F : ℕ → Pos → Pos → ℚ) (allctrs : ℕ → ℚ)
    (k : ℕ) (h : ℕ → ℕ → ℚ) : ℕ → ℕ → ℚ :=
  let snyctr := allctrs (2*n)
  let snxctr := allctrs (2*n+1)
  let yctr := allctrs (2*k)
  let xctr := allctrs (2*k+1)
  let c0 := F k (yctr, xctr) (snyctr, snxctr)
  let cyy := F k (yctr + 2*EPS, xctr) (snyctr, snxctr)
  let cxx := F k (yctr, xctr + 2*EPS) (snyctr, snxctr)
  let cyx := F k (yctr + EPS, xctr + EPS) (snyctr, snxctr)
  let cy := F k (yctr + EPS, xctr) (snyctr, snxctr)
  let cx := F k (yctr, xctr + EPS) (snyctr, snxctr)
  let h1 := hupd h (2*k) (2*k) ((cyy - 2*cy + c0) / EPS2)
  let h2 := hupd h1 (2*k+1) (2*k+1) ((cxx - 2*cx + c0) / EPS2)
  let h3 := hupd h2 (2*k) (2*k+1) ((cyx - cy - cx + c0) / EPS2)
  let h4 := hupd h3 (2*k+1) (2*k) (h3 (2*k) (2*k+1))
  let czz := F k (yctr, xctr) (snyctr + 2*EPS, snxctr)
  let cww := F k (yctr, xctr) (snyctr, snxctr + 2*EPS)
  let czw := F k (yctr, xctr) (snyctr + EPS, snxctr + EPS)
  let cz := F k (yctr, xctr) (snyctr + EPS, snxctr)
  let cw := F k (yctr, xctr) (snyctr, snxctr + EPS)
  let h5 := hupd h4 (2*n) (2*n) (h4 (2*n) (2*n) + (czz - 2*cz + c0) / EPS2)
  let h6 := hupd h5 (2*n+1) (2*n+1)
    (h5 (2*n+1) (2*n+1) + (cww - 2*cw + c0) / EPS2)
  let h7 := hupd h6 (2*n) (2*n+1) (h6 (2*n) (2*n+1) + (czw - cz - cw + c0) / EPS2)
  let h8 := hupd h7 (2*n+1) (2*n) (h7 (2*n+1) (2*n) + (czw - cz - cw + c0) / EPS2)
  let cyz := F k (yctr + EPS, xctr) (snyctr + EPS, snxctr)
  let cyw := F k (yctr + EPS, xctr) (snyctr, snxctr + EPS)
  let cxz := F k (yctr, xctr + EPS) (snyctr + EPS, snxctr)
  let cxw := F k (yctr, xctr + EPS) (snyctr, snxctr + EPS)
  let h9 := hupd h8 (2*k) (2*n) ((cyz - cy - cz - c0) / EPS2)
  let h10 := hupd h9 (2*k) (2*n+1) ((cyw - cy - cw - c0) / EPS2)
  let h11 := hupd h10 (2*k+1) (2*n) ((cxz - cx - cz - c0) / EPS2)
  let h12 := hupd h11 (2*k+1) (2*n+1) ((cxw - cx - cw - c0) / EPS2)
  let h13 := hupd h12 (2*n) (2*k) (h12 (2*k) (2*n))
  let h14 := hupd h13 (2*n+1) (2*k) (h13 (2*k) (2*n+1))
  let h15 := hupd h14 (2*n) (2*k+1) (h14 (2*k+1) (2*n))
  hupd h15 (2*n+1) (2*k+1) (h15 (2*k+1) (2*n+1))

/-- Embedding of `chisq_pssm_hess` (fitting.py lines 543-623): starting
from `hess = np.zeros(...)`, run the per-epoch update for each epoch
`i in range(nepochs)`. -/
def chisq_pssm_hess (n : ℕ) (F : ℕ → Pos → Pos → ℚ) (allctrs : ℕ → ℚ) :
    ℕ → ℕ → ℚ :=
  (List.range n).foldl (fun h k => hessEpochUpdate n F allctrs k h)
    (fun _ _ => 0)

/-- Modelled from the spec: the standard mixed-partial five-point
stencil `(f(a+h, b+h) - f(a+h, b) - f(a, b+h) + f(a, b)) / h^2`. -/
def mixedStencil (f : ℚ → ℚ → ℚ) (a b h : ℚ) : ℚ :=
  (f (a+h) (b+h) - f (a+h) b - f a (b+h) + f a b) / h^2

/-- Modelled from the spec: the standard pure second-derivative stencil
`(f(a+2h) - 2 f(a+h) + f(a)) / h^2`. -/
def pureStencil (f : ℚ → ℚ) (a h : ℚ) : ℚ :=
  (f (a + 2*h) - 2 * f (a+h) + f a) / h^2

/-! ## Optimizer result checks (fitting.py lines 15-35 and the four
outer drivers) -/

/-- Embedding of `_check_result` (fitting.py lines 15-24), the warnflag
check run after `fmin_l_bfgs_b`: warnflag 0 returns normally; 1, 2 and
anything else raise `RuntimeError`, modelled as `Except.error` carrying
the raised message.  `msg` is the optimizer's own diagnostic string
`d['task']`; note the source interpolates it only in the warnflag = 2
branch. -/
def check_result (warnflag : ℕ) (msg : String) : Except String Unit :=
  if warnflag = 0 then Except.ok ()
  else if warnflag = 1 then
    Except.error "too many function calls or iterations in fmin_l_bfgs_b()"
  else if warnflag = 2 then
    Except.error ("fmin_l_bfgs_b() exited with warnflag=2: " ++ msg)
  else Except.error ("unknown warnflag: " ++ toString warnflag)

/-- Embedding of `_check_result_fmin` (fitting.py lines 27-35), the
warnflag check run after `fmin`; it receives no optimizer message at
all. -/
def check_result_fmin (warnflag : ℕ) : Except String Unit :=
  if warnflag = 0 then Except.ok ()
  else if warnflag = 1 then
    Except.error "maximum number of function calls reached in fmin"
  else if warnflag = 2 then
    Except.error "maximum number of iterations reached in fmin"
  else Except.error ("unknown warnflag: " ++ toString warnflag)

/-- The optimizer-result validation step of `fit_galaxy_single`
(fitting.py line 292): `_check_result(d['warnflag'], d['task'])`. -/
def fit_galaxy_single_check (warnflag : ℕ) (task : String) :
    Except String Unit :=
  check_result warnflag task

/-- The optimizer-result validation step of `fit_galaxy_sky_multi`
(fitting.py line 340): `_check_result(d['warnflag'], d['task'])`. -/
def fit_galaxy_sky_multi_check (warnflag : ℕ) (task : String) :
    Except String Unit :=
  check_result warnflag task

/-- The optimizer-result validation step of `fit_position_sky`
(fitting.py line 416): `_check_result_fmin(warnflag)`. -/
def fit_position_sky_check (warnflag : ℕ) : Except String Unit :=
  check_result_fmin warnflag

/-- The optimizer-result validation step of `fit_position_sky_sn_multi`
(fitting.py lines 699-701): the `_check_result(warnflag, d['task'])`
call is commented out in the source, so the warnflag returned by
`fmin_ncg` is discarded and the driver proceeds unconditionally. -/
def fit_position_sky_sn_multi_check (warnflag : ℕ) : Except String Unit :=
  Except.ok ()

/-! ## Position feasibility boxes (fitting.py lines 366-423, 491-504,
627-719) -/

/-- Strict membership in a feasibility box: the guard
`minbound[0] < ctr[0] < maxbound[0] and minbound[1] < ctr[1] <
maxbound[1]` of `fit_position_sky`'s objective (fitting.py lines
399-400). -/
def inBox (minb maxb ctr : Pos) : Prop :=
  minb.1 < ctr.1 ∧ ctr.1 < maxb.1 ∧ minb.2 < ctr.2 ∧ ctr.2 < maxb.2

instance (minb maxb ctr : Pos) : Decidable (inBox minb maxb ctr) :=
  inferInstanceAs (Decidable (_ ∧ _ ∧ _ ∧ _))

/-- The fixed position bound of `fit_position_sky`: `BOUND = 3.` spaxels
(fitting.py line 385). -/
def BOUND_fps : ℚ := 3

/-- The fixed position bound of `fit_position_sky_sn_multi`:
`BOUND = 2.` spaxels (fitting.py line 663). -/
def BOUND_pssm : ℚ := 2

/-- The feasibility-box lower corner of `fit_position_sky` (fitting.py
lines 386-396): `ctr0 - BOUND` clipped against the absolute lower bounds
`(yminabs, xminabs)` returned by `yxbounds(gshape, dshape)`.  `yxbounds`
lives in `cubefit.utils`, outside these sources, so its output is taken
as a parameter. -/
def fps_minbound (ctr0 : Pos) (yminabs xminabs : ℚ) : Pos :=
  (max (ctr0.1 - BOUND_fps) yminabs, max (ctr0.2 - BOUND_fps) xminabs)

/-- The feasibility-box upper corner of `fit_position_sky` (fitting.py
lines 386-396). -/
def fps_maxbound (ctr0 : Pos) (ymaxabs xmaxabs : ℚ) : Pos :=
  (min (ctr0.1 + BOUND_fps) ymaxabs, min (ctr0.2 + BOUND_fps) xmaxabs)

/-- The feasibility-box lower corner of `fit_position_sky_sn_multi` for
one epoch's data-position pair (fitting.py lines 671-685).  In the
source this box is computed and then passed only to a logging callback
(`callback(bounds)`), never to `fmin_ncg`. -/
def pssm_minbound (ctr0 : Pos) (yminabs xminabs : ℚ) : Pos :=
  (max (ctr0.1 - BOUND_pssm) yminabs, max (ctr0.2 - BOUND_pssm) xminabs)

/-- The feasibility-box upper corner of `fit_position_sky_sn_multi` for
one epoch's data-position pair (fitting.py lines 671-685). -/
def pssm_maxbound (ctr0 : Pos) (ymaxabs xmaxabs : ℚ) : Pos :=
  (min (ctr0.1 + BOUND_pssm) ymaxabs, min (ctr0.2 + BOUND_pssm) xmaxabs)

/-- Embedding of `objective_func` inside `fit_position_sky` (fitting.py
lines 398-412), instrumented: the second component records the positions
at which the forward model `atm.evaluate_galaxy` is invoked during the
evaluation.  An out-of-box trial returns `+infinity` (the top element of
`WithTop ℚ`) before any forward-model call; an in-box trial evaluates the
galaxy scene at `ctr`, profiles the sky as the per-wavelength weighted
average of the residual, and returns the weighted sum of squares. -/
def fit_position_sky_objective (evalGal : Pos → Cube nw ns)
    (data weight : Cube nw ns) (minb maxb : Pos) (ctr : Pos) :
    WithTop ℚ × List Pos :=
  if inBox minb maxb ctr then
    let gal := evalGal ctr
    (((∑ i, ∑ j, weight i j * (residual gal data i j
        - weightedAvg weight (residual gal data) i) ^ 2 : ℚ) : WithTop ℚ),
      [ctr])
  else (⊤, [])

/-- The forward-model call positions of one `chisq_nonref_epoch`
evaluation (fitting.py lines 481-488): `atm.evaluate_galaxy` and
`atm.evaluate_point_source` are each invoked once, at data position
`ctr` (the point-source evaluation additionally receives `snctr`), with
no feasibility-box guard anywhere in the call chain. -/
def chisq_nonref_epoch_modelCalls (ctr snctr : Pos) : List Pos := [ctr]

/-- Embedding of `chisq_pssm` (fitting.py lines 491-504): the sum over
epochs of the fully profiled chi-square `chisq_nonref_epoch`, abstracted
as `F` (it depends on the opaque forward model). -/
def chisq_pssm (n : ℕ) (F : ℕ → Pos → Pos → ℚ) (allctrs : ℕ → ℚ) : ℚ :=
  ∑ k ∈ Finset.range n,
    F k (allctrs (2*k), allctrs (2*k+1)) (allctrs (2*n), allctrs (2*n+1))

/-- The data positions at which one evaluation of `chisq_pssm` invokes
the forward model: every epoch's trial data position, unconditionally. -/
def chisq_pssm_modelCalls (n : ℕ) (allctrs : ℕ → ℚ) : List Pos :=
  (List.range n).flatMap fun k =>
    chisq_nonref_epoch_modelCalls (allctrs (2*k), allctrs (2*k+1))
      (allctrs (2*n), allctrs (2*n+1))

/-! ## guess_sky (fitting.py lines 100-139) -/

/-- One wavelength slice for the sky estimator: a list of
(value, weight) pixel pairs taken from `cube.data[i]` and
`cube.weight[i]`. -/
abbrev PixList := List (ℚ × ℚ)

/-- Embedding of the per-wavelength body of `guess_sky` (fitting.py
lines 124-137): keep the pixels with weight > 0, sort by value
(`np.argsort`), and return the weighted average of the
`k = min(npix, count)` lowest values, or 0 when `k <= 0`. -/
def guess_sky_slice (npix : ℕ) (pixels : PixList) : ℚ :=
  let sel := pixels.filter fun p => decide (0 < p.2)
  let k := min npix sel.length
  if k = 0 then 0
  else
    let low := (sel.mergeSort fun a b => decide (a.1 ≤ b.1)).take k
    (low.map fun p => p.2 * p.1).sum / (low.map fun p => p.2).sum

/-- Embedding of `guess_sky` (fitting.py lines 100-139): the
per-wavelength estimate applied to each slice of the cube. -/
def guess_sky (npix : ℕ) (cube : List PixList) : List ℚ :=
  cube.map (guess_sky_slice npix)

/-! ## guess_sky_clipping (fitting.py lines 44-97) -/

/-- Masked per-wavelength weighted average,
`np.ma.average(cube.data, weights=weight, axis=(1, 2))`: a wavelength
whose weights sum to zero yields a masked entry, modelled as `none`. -/
def maskedAvg (data weight : Cube nw ns) (i : Fin nw) : Option ℚ :=
  if (∑ j, weight i j) = 0 then none
  else some ((∑ j, weight i j * data i j) / ∑ j, weight i j)

/-- The initial per-pixel variance `var = 1.0/weight` (fitting.py line
65), with the `+inf` arising at zero weight modelled as `none`. -/
def initVar (weight : Cube nw ns) : Fin nw → Fin ns → Option ℚ :=
  fun i j => if weight i j = 0 then none else some (1 / weight i j)

/-- One entry of the clip mask `deviation**2 > clip**2 * var`
(fitting.py line 82).  A masked average propagates to a masked mask
entry (`none`); an infinite variance makes the comparison false, exactly
as `x > inf` (and, for `clip = 0`, `x > nan`) is false in IEEE
arithmetic. -/
def clipMaskEntry (clip d : ℚ) (avg v : Option ℚ) : Option Bool :=
  match avg with
  | none => none
  | some a =>
    match v with
    | none => some false
    | some vv => some (decide ((d - a) ^ 2 > clip ^ 2 * vv))

/-- The sigma-clipping loop of `guess_sky_clipping` (fitting.py lines
72-93), by structural recursion on the remaining iteration count.  Each
iteration computes the masked average and the clip mask, breaks when the
mask (data and maskedness together) equals the previous iteration's
mask, and otherwise zeroes the weight and variance of pixels whose mask
entry is an unmasked True (`weight[mask] = 0.0`, `var[mask] = 0.0`;
masked mask entries change nothing).  The returned value is the average
computed in the final iteration executed.  The fuel-0 case (maxiter = 0,
for which the source would return a non-array `None`) is extended with
the average of the untouched weights. -/
def guess_sky_clipping_loop (clip : ℚ) (data : Cube nw ns) :
    ℕ → Cube nw ns → (Fin nw → Fin ns → Option ℚ) →
    Option (Fin nw → Fin ns → Option Bool) → (Fin nw → Option ℚ)
  | 0, weight, _, _ => fun i => maskedAvg data weight i
  | m+1, weight, var, oldmask =>
    let avg := maskedAvg data weight
    let mask := fun i j => clipMaskEntry clip (data i j) (avg i) (var i j)
    if (match oldmask with
        | none => false
        | some om => decide (∀ i j, mask i j = om i j)) then
      avg
    else if m = 0 then avg
    else
      guess_sky_clipping_loop clip data m
        (fun i j => if mask i j = some true then 0 else weight i j)
        (fun i j => if mask i j = some true then some 0 else var i j)
        (some mask)

/-- Embedding of `guess_sky_clipping` (fitting.py lines 44-97).  The
final `np.asarray(avg)` resolves masked wavelengths to 0 (source comment
at lines 95-96), modelled by `Option.getD 0`. -/
def guess_sky_clipping (clip : ℚ) (data weight : Cube nw ns)
    (maxiter : ℕ) : Spectrum nw :=
  fun i =>
    (guess_sky_clipping_loop clip data maxiter weight (initVar weight)
      none i).getD 0

/-! ## Concrete cubes used to instantiate theorems -/

/-- The all-zero cube on a 1-wavelength, 2-pixel grid. -/
def cubeZero : Cube 1 2 := fun _ _ => 0

/-- The all-one cube on a 1-wavelength, 2-pixel grid. -/
def cubeOne : Cube 1 2 := fun _ _ => 1

/-- A cube whose pixel values are the spatial index (0 and 1). -/
def cubeRamp : Cube 1 2 := fun _ j => (j.1 : ℚ)

end Cubefit

namespace Cubefit

variable {nw ns : ℕ}

/-! ## Claim C1: determine_sky_and_sn solves the per-slice 2x2 weighted
least-squares problem -/

/-- C1.  For every galmodel, snmodel, data and weight cube on which
`determine_sky_and_sn` returns successfully, and every wavelength slice
`i` whose 2x2 normal matrix is nonsingular (`denom ≠ 0`), the returned
`sky i` and `sn i` equal the closed-form weighted-least-squares solution
obtained by direct inversion of the 2x2 normal equations for that slice,
and they satisfy those normal equations. -/
theorem determine_sky_and_sn_wls (g s d w : Cube nw ns)
    (out : Spectrum nw × Spectrum nw)
    (hok : determine_sky_and_sn g s d w = Except.ok out)
    (i : Fin nw) (hd : denom s w i ≠ 0) :
    out.1 i = wlsSky g s d w i ∧ out.2 i = wlsSn g s d w i
      ∧ A22 w i * out.1 i + (∑ j, w i j * s i j) * out.2 i = refSwr g d w i
      ∧ (∑ j, w i j * s i j) * out.1 i + A11 s w i * out.2 i
          = refSwpr g s d w i := by
  -- Extract the returned spectra from the success branch.
  unfold determine_sky_and_sn at hok
  split at hok
  · exact absurd hok (by simp)
  simp only [Except.ok.injEq] at hok
  subst hok
  -- Basic sum identities relating the source's accumulators to the
  -- reference right-hand sides.
  have h1 : wd d w i - wgal g w i = refSwr g d w i := by
    unfold wd wgal refSwr
    rw [← Finset.sum_sub_distrib]
    exact Finset.sum_congr rfl fun j _ => by ring
  have h2 : wdsn s d w i - wgalsn g s w i = refSwpr g s d w i := by
    unfold wdsn wgalsn refSwpr
    rw [← Finset.sum_sub_distrib]
    exact Finset.sum_congr rfl fun j _ => by ring
  have h3 : A12 s w i = -(∑ j, w i j * s i j) := by
    unfold A12
    rw [← Finset.sum_neg_distrib]
    exact Finset.sum_congr rfl fun j _ => by ring
  have hden : denom s w i
      = (∑ j, w i j) * (∑ j, w i j * s i j ^ 2)
        - (∑ j, w i j * s i j) * (∑ j, w i j * s i j) := by
    unfold denom A21
    rw [h3]
    unfold A11 A22
    ring
  have hsafe : denomSafe s w i = denom s w i := if_neg hd
  have hΔ : ((∑ j, w i j) * (∑ j, w i j * s i j ^ 2)
      - (∑ j, w i j * s i j) * (∑ j, w i j * s i j)) ≠ 0 := hden ▸ hd
  have hsky : skyOut g s d w i = wlsSky g s d w i := by
    unfold skyOut b_sky c_sky
    rw [if_neg hd, hsafe, div_sub_div_same]
    unfold wlsSky
    rw [← h1, ← h2, h3, ← hden]
    congr 1
    unfold A11
    ring
  have hA21 : A21 s w i = -(∑ j, w i j * s i j) := h3
  have hsn : snOut g s d w i = wlsSn g s d w i := by
    unfold snOut b_sn c_sn
    rw [if_neg hd, hsafe, div_sub_div_same]
    unfold wlsSn
    rw [← h1, ← h2, ← hden, hA21]
    congr 1
    unfold A22
    ring
  refine ⟨hsky, hsn, ?_, ?_⟩
  · show A22 w i * skyOut g s d w i
        + (∑ j, w i j * s i j) * snOut g s d w i = refSwr g d w i
    rw [hsky, hsn]
    unfold wlsSky wlsSn A22
    field_simp
    ring
  · show (∑ j, w i j * s i j) * skyOut g s d w i
        + A11 s w i * snOut g s d w i = refSwpr g s d w i
    rw [hsky, hsn]
    unfold wlsSky wlsSn A11
    field_simp
    ring

/-- Computation helper: the concrete ramp slice has denominator 1. -/
theorem denom_cubeRamp : denom cubeRamp cubeOne 0 = 1 := by
  norm_num [denom, A11, A12, A21, A22, cubeRamp, cubeOne, Fin.sum_univ_two]

/-- Computation helper: the all-zero cube has denominator 0. -/
theorem denom_cubeZero : denom cubeZero cubeZero 0 = 0 := by
  norm_num [denom, A11, A12, A21, A22, cubeZero, Fin.sum_univ_two]

/-- Computation helper: the all-zero cube has zero total weight. -/
theorem A22_cubeZero : A22 cubeZero 0 = 0 := by
  norm_num [A22, cubeZero, Fin.sum_univ_two]

/-- Witness for C1: on a concrete nonsingular slice (snmodel = spatial
ramp, unit weights and data, zero galaxy), the returned sky and sn equal
the direct-inversion solution. -/
theorem determine_sky_and_sn_wls_witness :
    skyOut cubeZero cubeRamp cubeOne cubeOne 0
        = wlsSky cubeZero cubeRamp cubeOne cubeOne 0
      ∧ snOut cubeZero cubeRamp cubeOne cubeOne 0
        = wlsSn cubeZero cubeRamp cubeOne cubeOne 0 := by
  have hok : determine_sky_and_sn cubeZero cubeRamp cubeOne cubeOne
      = Except.ok (skyOut cubeZero cubeRamp cubeOne cubeOne,
                   snOut cubeZero cubeRamp cubeOne cubeOne) := by
    unfold determine_sky_and_sn
    rw [if_neg ?_]
    rintro ⟨i, hi, -⟩
    have hi0 : i = 0 := Subsingleton.elim i 0
    rw [hi0, denom_cubeRamp] at hi
    exact one_ne_zero hi
  have h := determine_sky_and_sn_wls cubeZero cubeRamp cubeOne cubeOne _
    hok 0 (by rw [denom_cubeRamp]; exact one_ne_zero)
  exact ⟨h.1, h.2.1⟩

/-! ## Claim C4: the zero-denominator error condition -/

/-- C4.  `determine_sky_and_sn` fails if and only if some wavelength slice
has `denom = 0` together with nonzero total weight `A22 ≠ 0`; when it
returns, every slice with `denom = 0` carries zero total weight and both
outputs at that slice are exactly 0. -/
theorem determine_sky_and_sn_zero_weight (g s d w : Cube nw ns) :
    ((∃ e, determine_sky_and_sn g s d w = Except.error e)
        ↔ ∃ i, denom s w i = 0 ∧ A22 w i ≠ 0)
      ∧ ∀ out, determine_sky_and_sn g s d w = Except.ok out →
          ∀ i, denom s w i = 0 →
            A22 w i = 0 ∧ out.1 i = 0 ∧ out.2 i = 0 := by
  constructor
  · constructor
    · rintro ⟨e, he⟩
      unfold determine_sky_and_sn at he
      split at he
      · assumption
      · exact absurd he (by simp)
    · intro hex
      refine ⟨"found null denom for slices with non null weight", ?_⟩
      unfold determine_sky_and_sn
      rw [if_pos hex]
  · intro out hok i hdi
    unfold determine_sky_and_sn at hok
    split at hok
    · exact absurd hok (by simp)
    · rename_i h
      have hA : A22 w i = 0 := by
        by_contra hne
        exact h ⟨i, hdi, hne⟩
      simp only [Except.ok.injEq] at hok
      subst hok
      exact ⟨hA, by simp [skyOut, hdi], by simp [snOut, hdi]⟩

/-- Witness for C4: the all-zero cube has `denom = 0` and `A22 = 0` at its
single wavelength, so no error is raised and both outputs are 0 there. -/
theorem determine_sky_and_sn_zero_weight_witness :
    A22 cubeZero 0 = 0
      ∧ skyOut cubeZero cubeZero cubeZero cubeZero 0 = 0
      ∧ snOut cubeZero cubeZero cubeZero cubeZero 0 = 0 := by
  have hok : determine_sky_and_sn cubeZero cubeZero cubeZero cubeZero
      = Except.ok (skyOut cubeZero cubeZero cubeZero cubeZero,
                   snOut cubeZero cubeZero cubeZero cubeZero) := by
    unfold determine_sky_and_sn
    rw [if_neg ?_]
    rintro ⟨i, -, hA⟩
    have hi0 : i = 0 := Subsingleton.elim i 0
    rw [hi0] at hA
    exact hA A22_cubeZero
  exact (determine_sky_and_sn_zero_weight cubeZero cubeZero cubeZero
    cubeZero).2 _ hok 0 denom_cubeZero

/-! ## Claim C6: the profiled-sky gradient formula -/

/-- C6.  In `chisq_galaxy_sky_single` the profiled sky is the
per-wavelength weighted average of the residual `r = data - scene`, and
the returned pair is: value `Σ weight*(r - sky)^2`, gradient
`gradient_helper` applied to `-2*(wr - vtwr)` where `wr` is the
weighted sky-subtracted residual and `vtwr = weight*(Σ wr / Σ weight)` is
the correction term subtracted from the naive weighted residual. -/
theorem chisq_galaxy_sky_single_formula {G Γ : Type}
    (evalGal : G → Cube nw ns) (gradHelper : Cube nw ns → Γ) (galaxy : G)
    (data weight : Cube nw ns) :
    (chisq_galaxy_sky_single evalGal gradHelper galaxy data weight).1
        = ∑ i, ∑ j, weight i j *
            (residual (evalGal galaxy) data i j
              - weightedAvg weight (residual (evalGal galaxy) data) i) ^ 2
      ∧ (chisq_galaxy_sky_single evalGal gradHelper galaxy data weight).2
        = gradHelper (fun i j =>
            -2 * (wrOf (evalGal galaxy) data weight i j
              - vtwrOf (evalGal galaxy) data weight i j)) := by
  constructor
  · rw [show (chisq_galaxy_sky_single evalGal gradHelper galaxy data weight).1
        = ∑ i, ∑ j, wrOf (evalGal galaxy) data weight i j
            * (residual (evalGal galaxy) data i j
              - weightedAvg weight (residual (evalGal galaxy) data) i)
      from rfl]
    refine Finset.sum_congr rfl fun i _ => Finset.sum_congr rfl fun j _ => ?_
    unfold wrOf
    ring
  · rfl

/-! ## Claim C10: the correction term vanishes in exact arithmetic -/

/-- C10.  When every wavelength slice has positive total weight, the
sky-subtracted weighted residual sums to zero per wavelength, so the
correction term `vtwr` is identically zero and the gradient returned by
`chisq_galaxy_sky_single` is `gradient_helper(-2*wr)` — the same formula
`chisq_galaxy_single` uses on the sky-subtracted data. -/
theorem chisq_galaxy_sky_single_zero_correction {G Γ : Type}
    (evalGal : G → Cube nw ns) (gradHelper : Cube nw ns → Γ) (galaxy : G)
    (data weight : Cube nw ns)
    (hw : ∀ i, 0 < ∑ j, weight i j) :
    (∀ i, ∑ j, weight i j *
        (residual (evalGal galaxy) data i j
          - weightedAvg weight (residual (evalGal galaxy) data) i) = 0)
      ∧ (∀ i j, vtwrOf (evalGal galaxy) data weight i j = 0)
      ∧ (chisq_galaxy_sky_single evalGal gradHelper galaxy data weight).2
          = gradHelper (fun i j => -2 * wrOf (evalGal galaxy) data weight i j)
      ∧ (chisq_galaxy_sky_single evalGal gradHelper galaxy data weight).2
          = (chisq_galaxy_single evalGal gradHelper galaxy
              (fun i j => data i j
                - weightedAvg weight (residual (evalGal galaxy) data) i)
              weight).2 := by
  have hw' : ∀ i, (∑ j, weight i j) ≠ 0 := fun i => ne_of_gt (hw i)
  have hkey : ∀ i, ∑ j, weight i j *
      (residual (evalGal galaxy) data i j
        - weightedAvg weight (residual (evalGal galaxy) data) i) = 0 := by
    intro i
    have hsplit : ∑ j, weight i j *
        (residual (evalGal galaxy) data i j
          - weightedAvg weight (residual (evalGal galaxy) data) i)
        = (∑ j, weight i j * residual (evalGal galaxy) data i j)
          - (∑ j, weight i j)
            * weightedAvg weight (residual (evalGal galaxy) data) i := by
      rw [Finset.sum_mul]
      rw [← Finset.sum_sub_distrib]
      exact Finset.sum_congr rfl fun j _ => by ring
    rw [hsplit]
    unfold weightedAvg
    rw [mul_comm, div_mul_cancel₀ _ (hw' i)]
    ring
  have hv : ∀ i j, vtwrOf (evalGal galaxy) data weight i j = 0 := by
    intro i j
    unfold vtwrOf
    rw [show (∑ k, wrOf (evalGal galaxy) data weight i k) = 0 from hkey i]
    simp
  refine ⟨hkey, hv, ?_, ?_⟩
  · show gradHelper _ = gradHelper _
    congr 1
    funext i j
    show -2 * (wrOf (evalGal galaxy) data weight i j
        - vtwrOf (evalGal galaxy) data weight i j) = _
    rw [show vtwrOf (evalGal galaxy) data weight i j = 0 from hv i j]
    show -2 * (wrOf (evalGal galaxy) data weight i j - 0)
        = -2 * wrOf (evalGal galaxy) data weight i j
    ring
  · show gradHelper _ = gradHelper _
    congr 1
    funext i j
    show -2 * (wrOf (evalGal galaxy) data weight i j
        - vtwrOf (evalGal galaxy) data weight i j) = _
    rw [show vtwrOf (evalGal galaxy) data weight i j = 0 from hv i j]
    unfold wrOf residual
    ring

/-- Witness for C10, on a concrete positive-weight cube with a constant
(zero) forward model and the identity gradient helper. -/
theorem chisq_galaxy_sky_single_zero_correction_witness :
    (chisq_galaxy_sky_single (fun _ : Unit => cubeZero)
        (fun c : Cube 1 2 => c) () cubeRamp cubeOne).2
      = fun i j => -2 * wrOf cubeZero cubeRamp cubeOne i j := by
  have hw : ∀ i, 0 < ∑ j, cubeOne i j := by
    intro i
    norm_num [cubeOne, Fin.sum_univ_two]
  exact (chisq_galaxy_sky_single_zero_correction (fun _ : Unit => cubeZero)
    (fun c : Cube 1 2 => c) () cubeRamp cubeOne hw).2.2.1

/-! ## Claim C7: cross-epoch blocks of the Hessian are exactly zero -/

/-- Reading an entry a `hupd` did not write returns the previous value. -/
theorem hupd_apply_ne (h : ℕ → ℕ → ℚ) (r c : ℕ) (v : ℚ) (r' c' : ℕ)
    (hne : ¬(r' = r ∧ c' = c)) : hupd h r c v r' c' = h r' c' :=
  if_neg hne

/-- An epoch update never writes a cross-epoch entry: epoch `k` only
writes inside its own 2x2 position block, the point-source rows/columns
`2n` and `2n+1`, and their intersections. -/
theorem hessEpochUpdate_cross_epoch (n k : ℕ) (F : ℕ → Pos → Pos → ℚ)
    (allctrs : ℕ → ℚ) (h : ℕ → ℕ → ℚ) (i j a b : ℕ)
    (hi : i < n) (hj : j < n) (hij : i ≠ j) (ha : a < 2) (hb : b < 2) :
    hessEpochUpdate n F allctrs k h (2*i+a) (2*j+b) = h (2*i+a) (2*j+b) := by
  simp only [hessEpochUpdate, hupd]
  rw [if_neg (by omega : ¬(2*i+a = 2*n+1 ∧ 2*j+b = 2*k+1))]
  rw [if_neg (by omega : ¬(2*i+a = 2*n ∧ 2*j+b = 2*k+1))]
  rw [if_neg (by omega : ¬(2*i+a = 2*n+1 ∧ 2*j+b = 2*k))]
  rw [if_neg (by omega : ¬(2*i+a = 2*n ∧ 2*j+b = 2*k))]
  rw [if_neg (by omega : ¬(2*i+a = 2*k+1 ∧ 2*j+b = 2*n+1))]
  rw [if_neg (by omega : ¬(2*i+a = 2*k+1 ∧ 2*j+b = 2*n))]
  rw [if_neg (by omega : ¬(2*i+a = 2*k ∧ 2*j+b = 2*n+1))]
  rw [if_neg (by omega : ¬(2*i+a = 2*k ∧ 2*j+b = 2*n))]
  rw [if_neg (by omega : ¬(2*i+a = 2*n+1 ∧ 2*j+b = 2*n))]
  rw [if_neg (by omega : ¬(2*i+a = 2*n ∧ 2*j+b = 2*n+1))]
  rw [if_neg (by omega : ¬(2*i+a = 2*n+1 ∧ 2*j+b = 2*n+1))]
  rw [if_neg (by omega : ¬(2*i+a = 2*n ∧ 2*j+b = 2*n))]
  rw [if_neg (by omega : ¬(2*i+a = 2*k+1 ∧ 2*j+b = 2*k))]
  rw [if_neg (by omega : ¬(2*i+a = 2*k ∧ 2*j+b = 2*k+1))]
  rw [if_neg (by omega : ¬(2*i+a = 2*k+1 ∧ 2*j+b = 2*k+1))]
  rw [if_neg (by omega : ¬(2*i+a = 2*k ∧ 2*j+b = 2*k))]

/-- C7.  For every number of epochs, every abstract per-epoch chi-square
and every parameter vector, the Hessian returned by `chisq_pssm_hess` is
exactly zero on the 2x2 block linking the position parameters of two
distinct epochs `i ≠ j` (rows `2i..2i+1`, columns `2j..2j+1`). -/
theorem chisq_pssm_hess_cross_epoch_zero (n : ℕ) (F : ℕ → Pos → Pos → ℚ)
    (allctrs : ℕ → ℚ) (i j a b : ℕ)
    (hi : i < n) (hj : j < n) (hij : i ≠ j) (ha : a < 2) (hb : b < 2) :
    chisq_pssm_hess n F allctrs (2*i+a) (2*j+b) = 0 := by
  unfold chisq_pssm_hess
  have key : ∀ L : List ℕ, ∀ h0 : ℕ → ℕ → ℚ,
      h0 (2*i+a) (2*j+b) = 0 →
      (L.foldl (fun h k => hessEpochUpdate n F allctrs k h) h0)
        (2*i+a) (2*j+b) = 0 := by
    intro L
    induction L with
    | nil => exact fun h0 hh => hh
    | cons k L ih =>
        intro h0 hh
        rw [List.foldl_cons]
        refine ih _ ?_
        rw [hessEpochUpdate_cross_epoch n k F allctrs h0 i j a b
          hi hj hij ha hb]
        exact hh
  exact key (List.range n) _ rfl

/-- Witness for C7: with two epochs, a constant chi-square and all
positions zero, the (row 0, column 2) entry linking epoch 0 to epoch 1
is zero. -/
theorem chisq_pssm_hess_cross_epoch_zero_witness :
    chisq_pssm_hess 2 (fun _ _ _ => 1) (fun _ => 0) 0 2 = 0 := by
  have h := chisq_pssm_hess_cross_epoch_zero 2 (fun _ _ _ => 1) (fun _ => 0)
    0 1 0 0 (by omega) (by omega) (by omega) (by omega) (by omega)
  simpa using h

/-! ## Claim C3: finite-difference stencils in chisq_pssm_hess -/

/-- C3 is refuted by the code: at a constant profiled chi-square
`f ≡ 1` (one epoch, all positions 0) the data-position x SN-position
cross entry of `chisq_pssm_hess` is `(cyz - cy - cz - c0)/EPS^2 = -5000`,
while the standard mixed stencil of the spec is `0`; the within-epoch
mixed entry and the pure-second-derivative diagonal entry do match their
stencils at the same input. -/
theorem chisq_pssm_hess_cross_entry_sign :
    chisq_pssm_hess 1 (fun _ _ _ => 1) (fun _ => 0) 0 2 = -5000
      ∧ mixedStencil (fun _ _ => (1 : ℚ)) 0 0 EPS = 0
      ∧ chisq_pssm_hess 1 (fun _ _ _ => 1) (fun _ => 0) 0 1
          = mixedStencil (fun _ _ => (1 : ℚ)) 0 0 EPS
      ∧ chisq_pssm_hess 1 (fun _ _ _ => 1) (fun _ => 0) 0 0
          = pureStencil (fun _ => (1 : ℚ)) 0 EPS := by
  have hr : List.range 1 = [0] := rfl
  refine ⟨?_, ?_, ?_, ?_⟩ <;>
    norm_num [chisq_pssm_hess, hessEpochUpdate, hupd, mixedStencil,
      pureStencil, EPS, EPS2, hr, List.foldl_cons, List.foldl_nil]

/-! ## Claim C2: optimizer termination checking in the outer drivers -/

/-- C2 is refuted by the code: `fit_position_sky_sn_multi` never checks
the warnflag returned by `fmin_ncg` (the check is commented out), so it
returns normally for every termination code; moreover, even in the
drivers that do check, the warnflag = 1 messages are fixed strings that
do not interpolate the optimizer's own diagnostic. -/
theorem fit_position_sky_sn_multi_no_check :
    (∀ warnflag : ℕ,
        fit_position_sky_sn_multi_check warnflag = Except.ok ())
      ∧ fit_galaxy_single_check 1 "ABNORMAL_TERMINATION_IN_LNSRCH"
          = Except.error
              "too many function calls or iterations in fmin_l_bfgs_b()"
      ∧ fit_galaxy_sky_multi_check 0 "" = Except.ok ()
      ∧ fit_position_sky_check 1
          = Except.error "maximum number of function calls reached in fmin" :=
  ⟨fun _ => rfl, rfl, rfl, rfl⟩

/-! ## Claim C5: forward-model evaluations and the feasibility box -/

/-- C5, amended.  The objective of `fit_position_sky` returns
`+infinity` with no forward-model call at every out-of-box trial
position; but the objective minimized by `fit_position_sky_sn_multi`
(`chisq_pssm`) has no such guard: at every trial parameter vector it
invokes the forward model at each epoch's data position,
unconditionally. -/
theorem position_box_policy :
    (∀ (nw ns : ℕ) (evalGal : Pos → Cube nw ns) (data weight : Cube nw ns)
        (minb maxb ctr : Pos), ¬ inBox minb maxb ctr →
        fit_position_sky_objective evalGal data weight minb maxb ctr
          = (⊤, []))
      ∧ ∀ (n : ℕ) (allctrs : ℕ → ℚ) (k : ℕ), k < n →
          (allctrs (2*k), allctrs (2*k+1)) ∈ chisq_pssm_modelCalls n allctrs := by
  constructor
  · intro nw ns evalGal data weight minb maxb ctr hout
    unfold fit_position_sky_objective
    rw [if_neg hout]
  · intro n allctrs k hk
    unfold chisq_pssm_modelCalls chisq_nonref_epoch_modelCalls
    rw [List.mem_flatMap]
    exact ⟨k, List.mem_range.mpr hk, List.mem_singleton.mpr rfl⟩

/-- Counterexample for C5 as originally stated: with one epoch, initial
guess (0, 0) and non-binding `yxbounds` output (-10, 10), the
feasibility box of `fit_position_sky_sn_multi` is (-2, 2) x (-2, 2), yet
at the out-of-box trial vector with every coordinate 100 the objective
`chisq_pssm` invokes the forward model at data position (100, 100). -/
theorem chisq_pssm_evaluates_outside_box :
    ¬ inBox (pssm_minbound (0, 0) (-10) (-10))
        (pssm_maxbound (0, 0) 10 10) (100, 100)
      ∧ chisq_pssm_modelCalls 1 (fun _ => 100) = [(100, 100)] := by
  constructor
  · intro h
    have h2 := h.2.1
    norm_num [pssm_maxbound, BOUND_pssm] at h2
  · rfl

/-- Witness for C5 (amended): at the concrete out-of-box trial (5, 5)
for the box (0, 0)-(1, 1) the `fit_position_sky` objective is
`+infinity` with no model call, and with one epoch the `chisq_pssm`
model-call list contains the epoch's trial data position. -/
theorem position_box_policy_witness :
    fit_position_sky_objective (fun _ => cubeZero) cubeRamp cubeOne
        (0, 0) (1, 1) (5, 5) = (⊤, [])
      ∧ ((100 : ℚ), (100 : ℚ)) ∈ chisq_pssm_modelCalls 1 (fun _ => 100) := by
  constructor
  · refine (position_box_policy).1 1 2 (fun _ => cubeZero) cubeRamp cubeOne
      (0, 0) (1, 1) (5, 5) ?_
    intro h
    have h2 := h.2.1
    norm_num at h2
  · exact (position_box_policy).2 1 (fun _ => 100) 0 (by omega)

/-! ## Claim C9: guess_sky averages the k lowest positive-weight pixels -/

/-- C9.  For every cube and wavelength index `i`, `guess_sky` at `i` is
`guess_sky_slice` of that slice; if no pixel of the slice has positive
weight the result is 0; and in general the result is the weighted
average of a size-`min npix count` subset `S` of the positive-weight
pixels `P` that is lowest-valued (every value in `S` is at most every
value left out), using the weights of `S`. -/
theorem guess_sky_lowest_k (npix : ℕ) (cube : List PixList) (i : ℕ)
    (hi : i < cube.length) :
    (guess_sky npix cube).get ⟨i, by simpa [guess_sky] using hi⟩
        = guess_sky_slice npix (cube.get ⟨i, hi⟩)
      ∧ ((cube.get ⟨i, hi⟩).filter (fun p => decide (0 < p.2)) = [] →
          guess_sky_slice npix (cube.get ⟨i, hi⟩) = 0)
      ∧ ∃ S T : PixList,
          ((cube.get ⟨i, hi⟩).filter (fun p => decide (0 < p.2))).Perm (S ++ T)
          ∧ S.length = min npix
              ((cube.get ⟨i, hi⟩).filter (fun p => decide (0 < p.2))).length
          ∧ (∀ a ∈ S, ∀ b ∈ T, a.1 ≤ b.1)
          ∧ (∀ a ∈ S, 0 < a.2)
          ∧ guess_sky_slice npix (cube.get ⟨i, hi⟩)
              = (S.map fun p => p.2 * p.1).sum / (S.map fun p => p.2).sum := by
  refine ⟨by simp [guess_sky], ?_, ?_⟩
  · intro hempty
    unfold guess_sky_slice
    rw [hempty]
    simp
  · set pixels := cube.get ⟨i, hi⟩ with hpix
    set sel := pixels.filter (fun p => decide (0 < p.2)) with hsel
    set k := min npix sel.length with hk
    set sorted := sel.mergeSort (fun a b => decide (a.1 ≤ b.1)) with hsorted
    refine ⟨sorted.take k, sorted.drop k, ?_, ?_, ?_, ?_, ?_⟩
    · rw [List.take_append_drop]
      exact (List.mergeSort_perm sel _).symm
    · rw [List.length_take, List.length_mergeSort]
      omega
    · have hpw : sorted.Pairwise (fun a b => decide (a.1 ≤ b.1) = true) := by
        refine List.sorted_mergeSort ?_ ?_ sel
        · intro a b c hab hbc
          simp only [decide_eq_true_eq] at *
          exact le_trans hab hbc
        · intro a b
          simp only [Bool.or_eq_true, decide_eq_true_eq]
          exact le_total a.1 b.1
      have hsplit : sorted = sorted.take k ++ sorted.drop k :=
        (List.take_append_drop k sorted).symm
      rw [hsplit] at hpw
      intro a ha b hb
      have := (List.pairwise_append.mp hpw).2.2 a ha b hb
      simpa using this
    · intro a ha
      have hmem : a ∈ sel := by
        have h1 : a ∈ sorted := List.take_subset k sorted ha
        rw [hsorted] at h1
        exact (List.mem_mergeSort).mp h1
      have := List.of_mem_filter hmem
      simpa using this
    · unfold guess_sky_slice
      dsimp only
      rw [← hk, ← hsorted]
      by_cases hzero : k = 0
      · rw [if_pos hzero, hzero]
        simp
      · rw [if_neg hzero]

/-- Witness for C9 on the concrete one-slice cube
`[[(5, 2), (1, 3)]]` with `npix = 1`. -/
theorem guess_sky_lowest_k_witness :
    (guess_sky 1 [[((5 : ℚ), (2 : ℚ)), (1, 3)]]).get ⟨0, by norm_num [guess_sky]⟩
        = guess_sky_slice 1 [(5, 2), (1, 3)]
      ∧ ∃ S T : PixList,
          (([((5 : ℚ), (2 : ℚ)), (1, 3)] : PixList).filter
              (fun p => decide (0 < p.2))).Perm (S ++ T)
          ∧ S.length = min 1
              (([((5 : ℚ), (2 : ℚ)), (1, 3)] : PixList).filter
                (fun p => decide (0 < p.2))).length
          ∧ (∀ a ∈ S, ∀ b ∈ T, a.1 ≤ b.1)
          ∧ (∀ a ∈ S, 0 < a.2)
          ∧ guess_sky_slice 1 [(5, 2), (1, 3)]
              = (S.map fun p => p.2 * p.1).sum / (S.map fun p => p.2).sum := by
  have h := guess_sky_lowest_k 1 [[((5 : ℚ), (2 : ℚ)), (1, 3)]] 0 (by norm_num)
  exact ⟨h.1, h.2.2⟩

/-! ## Claim C8: guess_sky_clipping returns 0 at all-zero-weight
wavelengths -/

/-- At a wavelength whose weights are all zero, every iteration of the
clipping loop keeps those weights zero and the masked average stays
masked. -/
theorem guess_sky_clipping_loop_masked (clip : ℚ) (data : Cube nw ns)
    (i : Fin nw) :
    ∀ (m : ℕ) (weight : Cube nw ns) (var : Fin nw → Fin ns → Option ℚ)
      (om : Option (Fin nw → Fin ns → Option Bool)),
      (∀ j, weight i j = 0) →
      guess_sky_clipping_loop clip data m weight var om i = none := by
  intro m
  induction m with
  | zero =>
      intro weight var om hz
      show maskedAvg data weight i = none
      unfold maskedAvg
      rw [if_pos (Finset.sum_eq_zero fun j _ => hz j)]
  | succ m ih =>
      intro weight var om hz
      have havg : maskedAvg data weight i = none := by
        unfold maskedAvg
        rw [if_pos (Finset.sum_eq_zero fun j _ => hz j)]
      simp only [guess_sky_clipping_loop]
      rw [apply_ite (fun f : Fin nw → Option ℚ => f i),
        apply_ite (fun f : Fin nw → Option ℚ => f i)]
      split
      · exact havg
      · split
        · exact havg
        · refine ih _ _ _ fun j => ?_
          dsimp only
          split
          · rfl
          · exact hz j

/-- C8.  For every cube, clip level and iteration limit, at every
wavelength whose pixels all carry zero weight the masked average of the
final iteration is undefined (masked) and the non-masked output of
`guess_sky_clipping` resolves it to exactly 0. -/
theorem guess_sky_clipping_zero_weight (clip : ℚ)
    (data weight : Cube nw ns) (maxiter : ℕ) (i : Fin nw)
    (hzero : ∀ j, weight i j = 0) :
    guess_sky_clipping_loop clip data maxiter weight (initVar weight)
        none i = none
      ∧ guess_sky_clipping clip data weight maxiter i = 0 := by
  have h := guess_sky_clipping_loop_masked clip data i maxiter weight
    (initVar weight) none hzero
  refine ⟨h, ?_⟩
  unfold guess_sky_clipping
  rw [h]
  rfl

/-- Witness for C8 on a concrete cube whose weights are all zero. -/
theorem guess_sky_clipping_zero_weight_witness :
    guess_sky_clipping 1 cubeRamp cubeZero 10 0 = 0 :=
  (guess_sky_clipping_zero_weight 1 cubeRamp cubeZero 10 0
    fun _ => rfl).2

end Cubefit
